import Mathlib

/-!
Verification of the import/export fixer engine of the `rift` repository.

The engine (`src/fix_imports.py`, with `src/fix.py` and
`src/modern_import_export_fixer.py` as near-duplicate variants) scans
JavaScript text with regular expressions, resolves duplicate exports,
rewrites export/import style per policy, and classifies modules from a
project-wide import tally.  The Python functions are embedded here as
executable Lean functions over `List Char`; each regular expression of the
source is translated into an explicit character-level matcher with the same
semantics (leftmost, non-overlapping `finditer` scanning; greedy
quantifiers with the limited backtracking the concrete patterns need).

Note: `src/fix.py` line 54 uses the pattern `(?<!export\s+)class\s+(\w+)`,
whose variable-width look-behind is rejected by Python's `re` module, so
`fix.py`'s `find_all_exports` (and everything calling it) raises
unconditionally; the runnable engine is `src/fix_imports.py`, which is what
is embedded below.
-/

namespace Rift

/-- Python `\w`: `[a-zA-Z0-9_]`. -/
def isWordChar (c : Char) : Bool :=
  (('a' ≤ c && c ≤ 'z') || ('A' ≤ c && c ≤ 'Z') || ('0' ≤ c && c ≤ '9') || c = '_')

/-- Python `\s` (ASCII): space, tab, newline, carriage return, form feed, vertical tab. -/
def isPySpace (c : Char) : Bool :=
  (c = ' ' || c = '\t' || c = '\n' || c = '\r' || c = '\x0b' || c = '\x0c')

/-- Python `str.strip()` (whitespace on both ends). -/
def pyStrip (cs : List Char) : List Char :=
  ((cs.dropWhile isPySpace).reverse.dropWhile isPySpace).reverse

/-- Python `str.rstrip()`. -/
def pyRStrip (cs : List Char) : List Char :=
  (cs.reverse.dropWhile isPySpace).reverse

/-- Python `str.startswith(pre)`. -/
def pyStartsWith (pre cs : List Char) : Bool :=
  pre.isPrefixOf cs

/-- Python `str.endswith(suf)`. -/
def pyEndsWith (suf cs : List Char) : Bool :=
  suf.reverse.isPrefixOf cs.reverse

/-- Python `sub in s` (substring containment). -/
def pyContains (sub : List Char) : List Char → Bool
  | [] => sub.isPrefixOf []
  | c :: cs => sub.isPrefixOf (c :: cs) || pyContains sub cs

/-- Python `s[a:b]` with non-negative bounds (clamped like Python slicing). -/
def pySlice (cs : List Char) (a b : Nat) : List Char :=
  ((cs.drop a).take (b - a))

/-- Python `s.find(c, from)`: index of the first occurrence of character `c`
at position `≥ from`, or `none` (Python returns `-1`). -/
def pyFindCharFrom (c : Char) (start : Nat) (cs : List Char) : Option Nat :=
  match (cs.drop start).indexOf? c with
  | some i => some (start + i)
  | none => none

/-- Python `s.rfind(c, 0, stop)`: index of the last occurrence of character
`c` before position `stop`, or `none` (Python returns `-1`). -/
def pyRFindCharBefore (c : Char) (stop : Nat) (cs : List Char) : Option Nat :=
  match (cs.take stop).reverse.indexOf? c with
  | some i => some (stop.min cs.length - 1 - i)
  | none => none

/-- Python `s.split(sep)` for a single-character separator. -/
def pySplitChar (sep : Char) : List Char → List (List Char)
  | [] => [[]]
  | c :: cs =>
    match pySplitChar sep cs with
    | [] => [[]]
    | p :: ps => if c = sep then [] :: p :: ps else (c :: p) :: ps

/-- The text before the first occurrence of `sep` (the whole list when `sep`
does not occur): the `[0]` projection of Python `str.split(sep)` for a
multi-character separator. -/
def pySplitHead (sep : List Char) : List Char → List Char
  | [] => []
  | c :: cs => if sep.isPrefixOf (c :: cs) then [] else c :: pySplitHead sep cs

/-- Python `str.replace(old, new)` (all occurrences, left to right,
continuing after each replacement).  `fuel` bounds the scan; it is always
called with `fuel = cs.length`, which suffices since every step consumes at
least one character of the input. -/
def pyReplaceAux (old new : List Char) : Nat → List Char → List Char
  | 0, cs => cs
  | _ + 1, [] => []
  | fuel + 1, c :: cs =>
    if old.isPrefixOf (c :: cs) && old ≠ [] then
      new ++ pyReplaceAux old new fuel ((c :: cs).drop old.length)
    else
      c :: pyReplaceAux old new fuel cs

/-- Python `str.replace(old, new)` for nonempty `old`. -/
def pyReplace (old new cs : List Char) : List Char :=
  pyReplaceAux old new cs.length cs

/-- Python `repr` of a string: quotes the text, preferring single quotes,
using double quotes when the text contains a single quote but no double
quote, and escaping backslashes and the chosen quote otherwise.  (The paths
the engine quotes contain no control characters, which `repr` would also
escape.) -/
def pyReprStr (cs : List Char) : List Char :=
  if cs.contains '\'' && !cs.contains '"' then
    '"' :: (cs ++ ['"'])
  else
    '\'' :: ((cs.flatMap fun c =>
      if c = '\'' then ['\\', '\''] else if c = '\\' then ['\\', '\\'] else [c]) ++ ['\''])

/-- Word-boundary test for the character preceding a `\b`: satisfied at the
start of the subject or after a non-word character. -/
def boundaryOk : Option Char → Bool
  | none => true
  | some p => !isWordChar p

/-- `re.findall(r'\b(\w+)\b', s)`: the maximal word-character runs of `s`,
in order.  `cur` accumulates the current run in reverse. -/
def wordRunsGo (cur : List Char) : List Char → List (List Char)
  | [] => if cur.isEmpty then [] else [cur.reverse]
  | c :: cs =>
    if isWordChar c then wordRunsGo (c :: cur) cs
    else if cur.isEmpty then wordRunsGo [] cs
    else cur.reverse :: wordRunsGo [] cs

/-- All maximal word runs of a string (`re.findall(r'\b(\w+)\b', s)`). -/
def wordRuns (cs : List Char) : List (List Char) :=
  wordRunsGo [] cs

/-- Does `cs` contain an occurrence of `name` delimited by word boundaries
(`\bname\b`)?  `prev` is the character just before the current position. -/
def hasWordBoundedSubGo (name : List Char) (prev : Option Char) : List Char → Bool
  | [] => false
  | c :: cs =>
    (name.isPrefixOf (c :: cs) && boundaryOk prev
      && boundaryOk (((c :: cs).drop name.length).head?))
    || hasWordBoundedSubGo name (some c) cs

/-- `\bname\b` occurs somewhere in `cs` (for a nonempty all-word `name`). -/
def hasWordBoundedSub (name cs : List Char) : Bool :=
  hasWordBoundedSubGo name none cs

/-- Generic `re.finditer`: try the matcher at every position, left to right;
on a match of length `n > 0`, record `(capture, start, start + n)` and
continue at the match end (non-overlapping), otherwise advance one
character.  `fuel` only bounds the scan; `fuel = cs.length` always
suffices. -/
def scanFindAux {α : Type} (step : List Char → Option (Nat × α)) :
    Nat → Nat → List Char → List (α × Nat × Nat)
  | 0, _, _ => []
  | _ + 1, _, [] => []
  | fuel + 1, i, c :: cs =>
    match step (c :: cs) with
    | some (n, a) =>
      if n = 0 then scanFindAux step fuel (i + 1) cs
      else (a, i, i + n) :: scanFindAux step fuel (i + n) ((c :: cs).drop n)
    | none => scanFindAux step fuel (i + 1) cs

/-- All matches of a matcher over `cs` (`re.finditer`). -/
def scanFind {α : Type} (step : List Char → Option (Nat × α)) (cs : List Char) :
    List (α × Nat × Nat) :=
  scanFindAux step cs.length 0 cs

/-- Generic `re.sub`: at every position try the matcher; on a match of
length `n > 0` emit the replacement and continue after the match, otherwise
copy one character. -/
def scanSubAux (step : List Char → Option (Nat × List Char)) : Nat → List Char → List Char
  | 0, cs => cs
  | _ + 1, [] => []
  | fuel + 1, c :: cs =>
    match step (c :: cs) with
    | some (n, rep) =>
      if n = 0 then c :: scanSubAux step fuel cs
      else rep ++ scanSubAux step fuel ((c :: cs).drop n)
    | none => c :: scanSubAux step fuel cs

/-- `re.sub` driver (single pass, non-overlapping, left to right). -/
def scanSub (step : List Char → Option (Nat × List Char)) (cs : List Char) : List Char :=
  scanSubAux step cs.length cs

/-- `re.sub` driver that additionally tracks the character preceding the
current position in the original subject, as required by patterns with a
leading word boundary.  On a match the tracked character becomes the last
character of the matched (removed) text, exactly as `\b` refers to subject
positions in Python. -/
def scanSubCtxAux (step : Option Char → List Char → Option Nat) :
    Nat → Option Char → List Char → List Char
  | 0, _, cs => cs
  | _ + 1, _, [] => []
  | fuel + 1, prev, c :: cs =>
    match step prev (c :: cs) with
    | some n =>
      if n = 0 then c :: scanSubCtxAux step fuel (some c) cs
      else scanSubCtxAux step fuel (((c :: cs).take n).getLast?) ((c :: cs).drop n)
    | none => c :: scanSubCtxAux step fuel (some c) cs

/-- Deleting `re.sub(pat, '', s)` driver with boundary context. -/
def scanSubCtx (step : Option Char → List Char → Option Nat) (cs : List Char) : List Char :=
  scanSubCtxAux step cs.length none cs

/-- Length of the leading whitespace run (`\s*`). -/
def wsRun (cs : List Char) : Nat :=
  (cs.takeWhile isPySpace).length

/-- Length of the leading word-character run (`\w*`). -/
def wordRun (cs : List Char) : Nat :=
  (cs.takeWhile isWordChar).length

/-- Match a literal at the head of the input. -/
def matchLit (lit cs : List Char) : Option Nat :=
  if lit.isPrefixOf cs then some lit.length else none

/-- Match `\s+` (one or more whitespace characters), returning the count. -/
def ws1 (cs : List Char) : Option Nat :=
  let w := wsRun cs
  if w = 0 then none else some w

/-- Match `(\w+)` at the head, returning length and the captured run. -/
def word1 (cs : List Char) : Option (Nat × List Char) :=
  let r := cs.takeWhile isWordChar
  if r.isEmpty then none else some (r.length, r)

/-- Match the optional `(?:\s*;)?` suffix: the number of characters it
consumes (whitespace run plus `;` when a `;` follows the run, else zero —
a shorter whitespace run can never expose a `;`, so no further
backtracking is needed). -/
def optSemi (cs : List Char) : Nat :=
  let w := wsRun cs
  if (cs.drop w).head? = some ';' then w + 1 else 0

/-- Matcher for `export\s+default\s+(\w+)(?:\s*;)?` (fix_imports.py:25);
captures the identifier. -/
def matchDefaultExport (cs : List Char) : Option (Nat × List Char) := do
  let l0 ← matchLit "export".toList cs
  let w1 ← ws1 (cs.drop l0)
  let p1 := l0 + w1
  let l1 ← matchLit "default".toList (cs.drop p1)
  let w2 ← ws1 (cs.drop (p1 + l1))
  let p2 := p1 + l1 + w2
  let (wl, name) ← word1 (cs.drop p2)
  let p3 := p2 + wl
  some (p3 + optSemi (cs.drop p3), name)

/-- Matcher for `export\s+default\s+function\s*\(` (fix_imports.py:29). -/
def matchAnonDefaultFunction (cs : List Char) : Option (Nat × Unit) := do
  let l0 ← matchLit "export".toList cs
  let w1 ← ws1 (cs.drop l0)
  let p1 := l0 + w1
  let l1 ← matchLit "default".toList (cs.drop p1)
  let w2 ← ws1 (cs.drop (p1 + l1))
  let p2 := p1 + l1 + w2
  let l2 ← matchLit "function".toList (cs.drop p2)
  let p3 := p2 + l2
  let w3 := wsRun (cs.drop p3)
  let _ ← matchLit "(".toList (cs.drop (p3 + w3))
  some (p3 + w3 + 1, ())

/-- Matcher for `export\s+default\s+class\s+\{` (fix_imports.py:29). -/
def matchAnonDefaultClass (cs : List Char) : Option (Nat × Unit) := do
  let l0 ← matchLit "export".toList cs
  let w1 ← ws1 (cs.drop l0)
  let p1 := l0 + w1
  let l1 ← matchLit "default".toList (cs.drop p1)
  let w2 ← ws1 (cs.drop (p1 + l1))
  let p2 := p1 + l1 + w2
  let l2 ← matchLit "class".toList (cs.drop p2)
  let w3 ← ws1 (cs.drop (p2 + l2))
  let p3 := p2 + l2 + w3
  let _ ← matchLit ['\x7b'] (cs.drop p3)
  some (p3 + 1, ())

/-- Matcher for `export\s+class\s+(\w+)` (fix_imports.py:35). -/
def matchExportClass (cs : List Char) : Option (Nat × List Char) := do
  let l0 ← matchLit "export".toList cs
  let w1 ← ws1 (cs.drop l0)
  let p1 := l0 + w1
  let l1 ← matchLit "class".toList (cs.drop p1)
  let w2 ← ws1 (cs.drop (p1 + l1))
  let p2 := p1 + l1 + w2
  let (wl, name) ← word1 (cs.drop p2)
  some (p2 + wl, name)

/-- Matcher for `export\s+function\s+(\w+)` (fix_imports.py:39). -/
def matchExportFunction (cs : List Char) : Option (Nat × List Char) := do
  let l0 ← matchLit "export".toList cs
  let w1 ← ws1 (cs.drop l0)
  let p1 := l0 + w1
  let l1 ← matchLit "function".toList (cs.drop p1)
  let w2 ← ws1 (cs.drop (p1 + l1))
  let p2 := p1 + l1 + w2
  let (wl, name) ← word1 (cs.drop p2)
  some (p2 + wl, name)

/-- One alternative of `(?:const|let|var)\s+(\w+)`: a keyword, then
whitespace, then a captured identifier. -/
def matchKwWord (kw : List Char) (cs : List Char) : Option (Nat × List Char) := do
  let l0 ← matchLit kw cs
  let w1 ← ws1 (cs.drop l0)
  let p1 := l0 + w1
  let (wl, name) ← word1 (cs.drop p1)
  some (p1 + wl, name)

/-- Matcher for `export\s+(?:const|let|var)\s+(\w+)` (fix_imports.py:43);
alternatives are tried in the pattern's order. -/
def matchExportConst (cs : List Char) : Option (Nat × List Char) := do
  let l0 ← matchLit "export".toList cs
  let w1 ← ws1 (cs.drop l0)
  let p1 := l0 + w1
  let rest := cs.drop p1
  let (n, name) ← (matchKwWord "const".toList rest <|>
    matchKwWord "let".toList rest <|> matchKwWord "var".toList rest)
  some (p1 + n, name)

/-- Matcher for `export\s*\{([^}]+)\}(?:\s*;)?` (fix_imports.py:47);
captures the brace contents. -/
def matchDestructuredExport (cs : List Char) : Option (Nat × List Char) := do
  let l0 ← matchLit "export".toList cs
  let w1 := wsRun (cs.drop l0)
  let p1 := l0 + w1
  let _ ← matchLit ['\x7b'] (cs.drop p1)
  let inner := (cs.drop (p1 + 1)).takeWhile (fun d => d ≠ '}')
  if inner.isEmpty then none else
  let p2 := p1 + 1 + inner.length
  let _ ← matchLit ['\x7d'] (cs.drop p2)
  let p3 := p2 + 1
  some (p3 + optSemi (cs.drop p3), inner)

/-- Matcher for `class\s+(\w+)` (fix_imports.py:55). -/
def matchClassWord (cs : List Char) : Option (Nat × List Char) := do
  let l0 ← matchLit "class".toList cs
  let w1 ← ws1 (cs.drop l0)
  let p1 := l0 + w1
  let (wl, name) ← word1 (cs.drop p1)
  some (p1 + wl, name)

/-- Match a quote-delimited module path `['"]([^'"]+)['"]`: either quote
opens, the contents exclude both quote characters and are nonempty, and
either quote closes.  Captures the path. -/
def matchQuotedPath (cs : List Char) : Option (Nat × List Char) := do
  let q ← cs.head?
  if q = '\'' || q = '"' then
    let path := (cs.drop 1).takeWhile (fun d => d ≠ '\'' && d ≠ '"')
    if path.isEmpty then none else
    match (cs.drop (1 + path.length)).head? with
    | some q2 => if q2 = '\'' || q2 = '"' then some (path.length + 2, path) else none
    | none => none
  else none

/-- Matcher for `import\s+(\w+)\s+from\s+['"]([^'"]+)['"]`
(fix_imports.py:83); captures (local name, path). -/
def matchImportDefault (cs : List Char) : Option (Nat × (List Char × List Char)) := do
  let l0 ← matchLit "import".toList cs
  let w1 ← ws1 (cs.drop l0)
  let p1 := l0 + w1
  let (wl, name) ← word1 (cs.drop p1)
  let w2 ← ws1 (cs.drop (p1 + wl))
  let p2 := p1 + wl + w2
  let l1 ← matchLit "from".toList (cs.drop p2)
  let w3 ← ws1 (cs.drop (p2 + l1))
  let p3 := p2 + l1 + w3
  let (ql, path) ← matchQuotedPath (cs.drop p3)
  some (p3 + ql, (name, path))

/-- Matcher for `import\s*\{([^}]+)\}\s+from\s+['"]([^'"]+)['"]`
(fix_imports.py:88); captures (brace contents, path). -/
def matchImportNamed (cs : List Char) : Option (Nat × (List Char × List Char)) := do
  let l0 ← matchLit "import".toList cs
  let w1 := wsRun (cs.drop l0)
  let p1 := l0 + w1
  let _ ← matchLit ['\x7b'] (cs.drop p1)
  let inner := (cs.drop (p1 + 1)).takeWhile (fun d => d ≠ '}')
  if inner.isEmpty then none else
  let p2 := p1 + 1 + inner.length
  let _ ← matchLit ['\x7d'] (cs.drop p2)
  let w2 ← ws1 (cs.drop (p2 + 1))
  let p3 := p2 + 1 + w2
  let l1 ← matchLit "from".toList (cs.drop p3)
  let w3 ← ws1 (cs.drop (p3 + l1))
  let p4 := p3 + l1 + w3
  let (ql, path) ← matchQuotedPath (cs.drop p4)
  some (p4 + ql, (inner, path))

/-- The `\s*}?\s+` middle of the UIComponent import pattern, followed by
`from\s+['"]([^'"]+)['"]`.  Tries the greedy variant that consumes a `}`
after the first whitespace run first; if that fails, falls back to the
variant without `}`, which needs at least one whitespace character (the
two runs `\s*`/`\s+` then split one whitespace run). -/
def matchUiTail (cs : List Char) : Option (Nat × List Char) :=
  let fromPath : List Char → Option (Nat × List Char) := fun r => do
    let l0 ← matchLit "from".toList r
    let w ← ws1 (r.drop l0)
    let p := l0 + w
    let (ql, path) ← matchQuotedPath (r.drop p)
    some (p + ql, path)
  let w1 := wsRun cs
  let withBrace : Option (Nat × List Char) :=
    if (cs.drop w1).head? = some '}' then do
      let w2 ← ws1 (cs.drop (w1 + 1))
      let p := w1 + 1 + w2
      let (n, path) ← fromPath (cs.drop p)
      some (p + n, path)
    else none
  let without : Option (Nat × List Char) :=
    if w1 = 0 then none
    else do
      let (n, path) ← fromPath (cs.drop w1)
      some (w1 + n, path)
  withBrace <|> without

/-- Matcher for
`import\s+{?\s*UIComponent(?:\s+as\s+\w+)?\s*}?\s+from\s+['"]([^'"]+)['"]`
(fix_imports.py:350): captures the path.  The optional `as` group is
greedy; when its continuation fails the match is retried without it. -/
def matchUiImport (cs : List Char) : Option (Nat × List Char) := do
  let l0 ← matchLit "import".toList cs
  let w1 ← ws1 (cs.drop l0)
  let p1 := l0 + w1
  let p2 := if (cs.drop p1).head? = some '{' then p1 + 1 else p1
  let w2 := wsRun (cs.drop p2)
  let p3 := p2 + w2
  let l1 ← matchLit "UIComponent".toList (cs.drop p3)
  let p4 := p3 + l1
  let withAs : Option (Nat × List Char) := do
    let wa ← ws1 (cs.drop p4)
    let la ← matchLit "as".toList (cs.drop (p4 + wa))
    let wb ← ws1 (cs.drop (p4 + wa + la))
    let (wl, _) ← word1 (cs.drop (p4 + wa + la + wb))
    let p5 := p4 + wa + la + wb + wl
    let (n, path) ← matchUiTail (cs.drop p5)
    some (p5 + n, path)
  let withoutAs : Option (Nat × List Char) := do
    let (n, path) ← matchUiTail (cs.drop p4)
    some (p4 + n, path)
  (withAs <|> withoutAs)

/-- Matcher for
`import\s+{([^}]+)}\s+from\s+['"]([^'"]*UIComponent(?:\.js)?)['"]`
(fix_imports.py:373): captures (brace contents, path); the path must end
in `UIComponent` or `UIComponent.js`. -/
def matchUiPathImport (cs : List Char) : Option (Nat × (List Char × List Char)) := do
  let l0 ← matchLit "import".toList cs
  let w1 ← ws1 (cs.drop l0)
  let p1 := l0 + w1
  let _ ← matchLit ['\x7b'] (cs.drop p1)
  let inner := (cs.drop (p1 + 1)).takeWhile (fun d => d ≠ '}')
  if inner.isEmpty then none else
  let p2 := p1 + 1 + inner.length
  let _ ← matchLit ['\x7d'] (cs.drop p2)
  let w2 ← ws1 (cs.drop (p2 + 1))
  let p3 := p2 + 1 + w2
  let l1 ← matchLit "from".toList (cs.drop p3)
  let w3 ← ws1 (cs.drop (p3 + l1))
  let p4 := p3 + l1 + w3
  let (ql, path) ← matchQuotedPath (cs.drop p4)
  if pyEndsWith "UIComponent".toList path || pyEndsWith "UIComponent.js".toList path then
    some (p4 + ql, (inner, path))
  else none

/-- Matcher for `UIComponent\s+as\s+(\w+)` (fix_imports.py:360);
captures the alias. -/
def matchUiAlias (cs : List Char) : Option (Nat × List Char) := do
  let l0 ← matchLit "UIComponent".toList cs
  let w1 ← ws1 (cs.drop l0)
  let l1 ← matchLit "as".toList (cs.drop (l0 + w1))
  let w2 ← ws1 (cs.drop (l0 + w1 + l1))
  let p1 := l0 + w1 + l1 + w2
  let (wl, aliasName) ← word1 (cs.drop p1)
  some (p1 + wl, aliasName)

/-- `re.search(r'UIComponent\s+as\s+(\w+)', s)`: the first match's captured
alias, if any. -/
def searchUiAlias (cs : List Char) : Option (List Char) :=
  match scanFind matchUiAlias cs with
  | [] => none
  | (aliasName, _, _) :: _ => some aliasName

/-- Matcher for `export\s*\{[^}]*\b<name>\b[^}]*\}(?:\s*;)?`
(fix_imports.py:151): an export brace list containing a word-bounded
occurrence of `name`. -/
def matchDestructuredWithName (name : List Char) (cs : List Char) : Option (Nat × Unit) := do
  let l0 ← matchLit "export".toList cs
  let w1 := wsRun (cs.drop l0)
  let p1 := l0 + w1
  let _ ← matchLit ['\x7b'] (cs.drop p1)
  let inner := (cs.drop (p1 + 1)).takeWhile (fun d => d ≠ '}')
  let p2 := p1 + 1 + inner.length
  let _ ← matchLit ['\x7d'] (cs.drop p2)
  if hasWordBoundedSub name inner then
    let p3 := p2 + 1
    some (p3 + optSemi (cs.drop p3), ())
  else none

/-- `re.search` for `matchDestructuredWithName`: the span of the first
match in `cs`, if any. -/
def searchDestructuredWithName (name cs : List Char) : Option (Nat × Nat) :=
  match scanFind (matchDestructuredWithName name) cs with
  | [] => none
  | (_, s, e) :: _ => some (s, e)

/-- `re.search(r'\{([^}]+)\}', s).group(1)`: the first nonempty brace
contents; on failure at one `{` the search continues at the next
position. -/
def firstBraceInner : List Char → Option (List Char)
  | [] => none
  | c :: cs =>
    if c = '{' then
      let inner := cs.takeWhile (fun d => d ≠ '}')
      if !inner.isEmpty && (cs.drop inner.length).head? = some '}' then some inner
      else firstBraceInner cs
    else firstBraceInner cs

/-- `re.sub(r'//.*?$', '', s, flags=re.MULTILINE)` matcher: at `//`,
delete up to (not including) the end of the line. -/
def stepLineComment (cs : List Char) : Option (Nat × List Char) :=
  if "//".toList.isPrefixOf cs then some ((cs.takeWhile (fun d => d ≠ '\n')).length, [])
  else none

/-- Strip `//` line comments from an import list (fix_imports.py:92). -/
def stripLineComments (cs : List Char) : List Char :=
  scanSub stepLineComment cs

/-- Matcher for the deletion `re.sub(r',?\s*\b<name>\b\s*,?', '', s)`
(fix_imports.py:166): an optional leading comma, whitespace, a
word-bounded `name`, whitespace, and an optional trailing comma; returns
the consumed length.  `prev` is the character before the current position
(for the leading word boundary when nothing precedes the name in the
match). -/
def stepDropNameComma (name : List Char) (prev : Option Char) (cs : List Char) : Option Nat :=
  let after : List Char → Option Nat := fun r =>
    if name.isPrefixOf r && boundaryOk ((r.drop name.length).head?) then
      let r2 := r.drop name.length
      let w2 := wsRun r2
      let optComma := if (r2.drop w2).head? = some ',' then w2 + 1 else w2
      some (name.length + optComma)
    else none
  let withComma : Option Nat :=
    if cs.head? = some ',' then do
      let w := wsRun (cs.drop 1)
      let n ← after ((cs.drop 1).drop w)
      some (1 + w + n)
    else none
  let without : Option Nat := do
    let w := wsRun cs
    if w = 0 && !boundaryOk prev then none
    else do
      let n ← after (cs.drop w)
      some (w + n)
  withComma <|> without

/-- `re.sub(r',?\s*\b<name>\b\s*,?', '', s)` (fix_imports.py:166). -/
def subDropNameComma (name cs : List Char) : List Char :=
  scanSubCtx (stepDropNameComma name) cs

/-- Matcher for `re.sub(r',\s*,', ',', s)` (fix_imports.py:168). -/
def stepCommaComma (cs : List Char) : Option (Nat × List Char) :=
  if cs.head? = some ',' then
    let w := wsRun (cs.drop 1)
    if (cs.drop (1 + w)).head? = some ',' then some (w + 2, [','] ) else none
  else none

/-- Matcher for `re.sub(r'\{\s*,', '{', s)` (fix_imports.py:169). -/
def stepBraceComma (cs : List Char) : Option (Nat × List Char) :=
  if cs.head? = some '{' then
    let w := wsRun (cs.drop 1)
    if (cs.drop (1 + w)).head? = some ',' then some (w + 2, ['{'] ) else none
  else none

/-- Matcher for `re.sub(r',\s*\}', '}', s)` (fix_imports.py:170). -/
def stepCommaBrace (cs : List Char) : Option (Nat × List Char) :=
  if cs.head? = some ',' then
    let w := wsRun (cs.drop 1)
    if (cs.drop (1 + w)).head? = some '}' then some (w + 2, ['}'] ) else none
  else none

/-- Matcher for `re.sub(r';;+', ';', s)` (fix_imports.py:187): a run of at
least two semicolons collapses to one. -/
def stepSemiRun (cs : List Char) : Option (Nat × List Char) :=
  let r := (cs.takeWhile (fun d => d = ';')).length
  if 2 ≤ r then some (r, [';']) else none

/-- Collapse `;;+` to `;` (fix_imports.py:187, 713). -/
def collapseSemis (cs : List Char) : List Char :=
  scanSub stepSemiRun cs

/-- Matcher for `re.sub(r'\n\s*\n\s*\n', '\n\n', s)` (fix_imports.py:188).
A match starts at a newline whose contiguous whitespace run contains at
least three newlines; greedy backtracking extends it to the last newline
of the run. -/
def stepBlankRun (cs : List Char) : Option (Nat × List Char) :=
  if cs.head? = some '\n' then
    let run := cs.takeWhile isPySpace
    let nlIdx := (run.enum.filter (fun p => p.2 = '\n')).map (fun p => p.1)
    if 3 ≤ nlIdx.length then
      match nlIdx.getLast? with
      | some last => some (last + 1, ['\n', '\n'])
      | none => none
    else none
  else none

/-- Collapse three-or-more blank lines to one blank line
(fix_imports.py:188). -/
def collapseBlankLines (cs : List Char) : List Char :=
  scanSub stepBlankRun cs




/-- A ChangeRecord: one entry of the `changes` list, one constructor per
message the engine produces (`f"..."` strings in the source). -/
inductive Change : Type where
  /-- `"Removed duplicate export { {name} }"` (fix_imports.py:163). -/
  | removedDuplicateBraceExport (name : List Char)
  /-- `"Removed {name} from export statement"` (fix_imports.py:172). -/
  | removedNameFromExportStatement (name : List Char)
  /-- `"Removed duplicate {export_type} export of {name}"` (fix_imports.py:184). -/
  | removedDuplicateExport (kind : String) (name : List Char)
  /-- `"Added default export for {basename}"` (fix_imports.py:214). -/
  | addedDefaultExport (name : List Char)
  /-- `"Class to Default export: {basename}"` (fix_imports.py:219). -/
  | classToDefaultExport (name : List Char)
  /-- `"Default to Named export: {name}"` (fix_imports.py:235). -/
  | defaultToNamedExport (name : List Char)
  /-- `"Class export to Named: {name}"` (fix_imports.py:250). -/
  | classExportToNamed (name : List Char)
  /-- `"Removed named export for {name}"` (fix_imports.py:269). -/
  | removedNamedExportFor (name : List Char)
  /-- `"Removed {name} from named exports"` (fix_imports.py:275). -/
  | removedFromNamedExports (name : List Char)
  /-- `"Fixed UIComponent import to use default import"` (fix_imports.py:370). -/
  | fixedUIComponentImport
  /-- `"Fixed UIComponent path import to use default import"` (fix_imports.py:383). -/
  | fixedUIComponentPathImport
deriving DecidableEq, Repr

/-- An export entry: captured name, match start, match end. -/
abbrev ExportEntry := List Char × Nat × Nat

/-- An import entry: imported name, module path, match start, match end. -/
abbrev ImportEntry := List Char × List Char × Nat × Nat

/-- Look a kind up in an exports/imports dictionary (Python `exports[k]`). -/
def dictGet (d : List (String × List α)) (k : String) : List α :=
  (d.lookup k).getD []

/-- `find_all_exports` (fix_imports.py:13-72): every export declaration of
the text with its span, grouped by kind in the dictionary's insertion
order `default, named, class, function, const, destructured`.  A bare
`class Name` is recorded under `named` only when the text of its line
before the match does not end in `export`/`export default` and the name
is not already in the `class`, `destructured` or `default` lists. -/
def find_all_exports (content : List Char) : List (String × List ExportEntry) :=
  let defaults := (scanFind matchDefaultExport content).map
    (fun m => (m.1, m.2.1, m.2.2)) ++
    ((scanFind matchAnonDefaultFunction content).map
      (fun m => ("_anonymous_".toList, m.2.1, m.2.2)) ++
     (scanFind matchAnonDefaultClass content).map
      (fun m => ("_anonymous_".toList, m.2.1, m.2.2)))
  let classes := (scanFind matchExportClass content).map (fun m => (m.1, m.2.1, m.2.2))
  let functions := (scanFind matchExportFunction content).map (fun m => (m.1, m.2.1, m.2.2))
  let consts := (scanFind matchExportConst content).map (fun m => (m.1, m.2.1, m.2.2))
  let destructured := ((scanFind matchDestructuredExport content).map
    (fun m => ((pySplitChar ',' m.1).map pyStrip).map (fun n => (n, m.2.1, m.2.2)))).flatten
  let named := ((scanFind matchClassWord content).filter (fun m =>
    let start := m.2.1
    let line_start := match pyRFindCharBefore '\n' start content with
      | some i => i + 1
      | none => 0
    let preceding := pyStrip (pySlice content line_start start)
    !pyEndsWith "export".toList preceding &&
    !pyEndsWith "export default".toList preceding &&
    !classes.any (fun e => e.1 = m.1) &&
    !destructured.any (fun e => e.1 = m.1) &&
    !defaults.any (fun e => e.1 = m.1))).map (fun m => (m.1, m.2.1, m.2.2))
  [("default", defaults), ("named", named), ("class", classes),
   ("function", functions), ("const", consts), ("destructured", destructured)]

/-- The name recorded for one entry of a named import list
(fix_imports.py:97-98): `name.split(' as ')[0].strip()`, i.e. the text
before the first ` as ` — the pre-alias (exported) side — stripped. -/
def importEntryName (n : List Char) : List Char :=
  pyStrip (pySplitHead " as ".toList n)

/-- `find_all_imports` (fix_imports.py:74-101): default and named import
records.  For a named list, `//` comments are stripped, the list splits on
commas, blank entries are dropped, and each entry records
`importEntryName`. -/
def find_all_imports (content : List Char) : List (String × List ImportEntry) :=
  let defaults := (scanFind matchImportDefault content).map
    (fun m => (m.1.1, m.1.2, m.2.1, m.2.2))
  let named := ((scanFind matchImportNamed content).map (fun m =>
    let inner := stripLineComments m.1.1
    let names := ((pySplitChar ',' inner).map pyStrip).filter (fun n => !n.isEmpty)
    names.map (fun n => (importEntryName n, m.1.2, m.2.1, m.2.2)))).flatten
  [("default", defaults), ("named", named)]

/-- Append a value to the list stored under `k`, creating the key at the
end on first use (insertion-ordered dict, Python `setdefault` +
`append`). -/
def assocAppend (m : List (List Char × List (String × Nat × Nat)))
    (k : List Char) (v : String × Nat × Nat) :
    List (List Char × List (String × Nat × Nat)) :=
  match m with
  | [] => [(k, [v])]
  | (k', vs) :: rest =>
    if k' = k then (k', vs ++ [v]) :: rest else (k', vs) :: assocAppend rest k v

/-- `all_exports` (fix_imports.py:109-114): name → list of
(kind, start, end), accumulated over the exports dictionary in its
insertion order. -/
def all_exports_of (exports : List (String × List ExportEntry)) :
    List (List Char × List (String × Nat × Nat)) :=
  (exports.map (fun kv => kv.2.map (fun e => (e.1, kv.1, e.2.1, e.2.2)))).flatten.foldl
    (fun m x => assocAppend m x.1 (x.2.1, x.2.2.1, x.2.2.2)) []

/-- `duplicates` (fix_imports.py:117): the names with at least two
recorded declarations, in insertion order. -/
def duplicates_of (content : List Char) :
    List (List Char × List (String × Nat × Nat)) :=
  (all_exports_of (find_all_exports content)).filter (fun p => 1 < p.2.length)

/-- Stable insertion keeping the list sorted by start position in
descending order; an element with a key equal to existing ones is placed
after them, so the fold below is exactly Python's stable
`sort(key=start, reverse=True)` (fix_imports.py:124). -/
def insertByStartDesc (x : String × Nat × Nat) :
    List (String × Nat × Nat) → List (String × Nat × Nat)
  | [] => [x]
  | y :: ys => if y.2.1 < x.2.1 then x :: y :: ys else y :: insertByStartDesc x ys

/-- `positions.sort(key=lambda x: x[1], reverse=True)` (fix_imports.py:124). -/
def pySortByStartDesc (l : List (String × Nat × Nat)) : List (String × Nat × Nat) :=
  l.foldl (fun acc x => insertByStartDesc x acc) []

/-- First index of `k` in `ts` (Python `list.index`; only used when `k`
is present). -/
def pyIndex : List String → String → Nat
  | [], _ => 0
  | t :: ts, k => if t = k then 0 else pyIndex ts k + 1

/-- The kept entry's index (fix_imports.py:133-141): the first entry of
kind `class`, else `function`, else `const`, else `destructured`, else
index 0. -/
def keep_index (ts : List String) : Nat :=
  if ts.contains "class" then pyIndex ts "class"
  else if ts.contains "function" then pyIndex ts "function"
  else if ts.contains "const" then pyIndex ts "const"
  else if ts.contains "destructured" then pyIndex ts "destructured"
  else 0

/-- Removal of one non-retained destructured entry
(fix_imports.py:149-172): search a ±50-character window around the
recorded span for the export statement containing the name; delete the
whole statement when the name is its only word, else delete the name from
the list and clean up commas. -/
def removeDestructuredDup (name : List Char) (start stop : Nat)
    (content : List Char) : List Char × List Change :=
  let winStart := start - 50
  let window := pySlice content winStart (stop + 50)
  match searchDestructuredWithName name window with
  | none => (content, [])
  | some (ms, me) =>
    let actual_start := winStart + ms
    let actual_end := winStart + me
    let export_content := pySlice content actual_start actual_end
    match firstBraceInner export_content with
    | none => (content, [])
    | some inner =>
      let names_in_export := wordRuns inner
      if names_in_export.length = 1 then
        (content.take actual_start ++ content.drop actual_end,
         [Change.removedDuplicateBraceExport name])
      else
        let e1 := subDropNameComma name export_content
        let e2 := scanSub stepCommaComma e1
        let e3 := scanSub stepBraceComma e2
        let e4 := scanSub stepCommaBrace e3
        (content.take actual_start ++ e4 ++ content.drop actual_end,
         [Change.removedNameFromExportStatement name])

/-- Removal of one non-retained non-destructured entry
(fix_imports.py:173-184): delete the whole line containing the recorded
span, but only when the trimmed line starts with `export`. -/
def removeLineDup (kind : String) (name : List Char) (start stop : Nat)
    (content : List Char) : List Char × List Change :=
  let line_start := match pyRFindCharBefore '\n' start content with
    | some i => i + 1
    | none => 0
  let line_end := match pyFindCharFrom '\n' stop content with
    | some i => i
    | none => content.length
  let line := pySlice content line_start line_end
  if pyStartsWith "export".toList (pyStrip line) then
    (content.take line_start ++ content.drop (line_end + 1),
     [Change.removedDuplicateExport kind name])
  else (content, [])

/-- Resolve the duplicates of one name (the body of the loop at
fix_imports.py:123-184): sort the recorded spans by start descending,
compute the kept index, and remove every other entry in that order,
threading the (possibly already edited) text. -/
def processDuplicateName (content : List Char) (name : List Char)
    (positions : List (String × Nat × Nat)) : List Char × List Change :=
  let sorted := pySortByStartDesc positions
  let ki := keep_index (sorted.map (fun p => p.1))
  sorted.enum.foldl (fun acc ie =>
    if ie.1 = ki then acc
    else
      let r :=
        if ie.2.1 = "destructured" then
          removeDestructuredDup name ie.2.2.1 ie.2.2.2 acc.1
        else
          removeLineDup ie.2.1 name ie.2.2.1 ie.2.2.2 acc.1
      (r.1, acc.2 ++ r.2)) (content, [])

/-- `remove_duplicate_exports` (fix_imports.py:103-190): resolve every
duplicated export name, then collapse `;;+` and runs of blank lines. -/
def remove_duplicate_exports (content : List Char) : List Char × List Change :=
  let dups := duplicates_of content
  if dups.isEmpty then (content, [])
  else
    let folded := dups.foldl (fun acc nd =>
      let r := processDuplicateName acc.1 nd.1 nd.2
      (r.1, acc.2 ++ r.2)) (content, [])
    (collapseBlankLines (collapseSemis folded.1), folded.2)

/-- Matcher for `class\s+<name>\b` (fix_imports.py:212), with the given
replacement. -/
def stepClassName (name rep : List Char) (cs : List Char) : Option (Nat × List Char) := do
  let l0 ← matchLit "class".toList cs
  let w1 ← ws1 (cs.drop l0)
  let l1 ← matchLit name (cs.drop (l0 + w1))
  let n := l0 + w1 + l1
  if boundaryOk ((cs.drop n).head?) then some (n, rep) else none

/-- Matcher for `export\s+class\s+<name>\b` (fix_imports.py:217, 245),
with the given replacement. -/
def stepExportClassName (name rep : List Char) (cs : List Char) : Option (Nat × List Char) := do
  let l0 ← matchLit "export".toList cs
  let w1 ← ws1 (cs.drop l0)
  let p1 := l0 + w1
  let l1 ← matchLit "class".toList (cs.drop p1)
  let w2 ← ws1 (cs.drop (p1 + l1))
  let p2 := p1 + l1 + w2
  let l2 ← matchLit name (cs.drop p2)
  let n := p2 + l2
  if boundaryOk ((cs.drop n).head?) then some (n, rep) else none

/-- Matcher for `export\s+default\s+<name>(?:\s*;)?` (fix_imports.py:233),
with the given replacement.  The pattern has no boundary after the
name. -/
def stepExportDefaultName (name rep : List Char) (cs : List Char) : Option (Nat × List Char) := do
  let l0 ← matchLit "export".toList cs
  let w1 ← ws1 (cs.drop l0)
  let p1 := l0 + w1
  let l1 ← matchLit "default".toList (cs.drop p1)
  let w2 ← ws1 (cs.drop (p1 + l1))
  let p2 := p1 + l1 + w2
  let l2 ← matchLit name (cs.drop p2)
  let p3 := p2 + l2
  some (p3 + optSemi (cs.drop p3), rep)

/-- `','.join(xs)`. -/
def joinComma : List (List Char) → List Char
  | [] => []
  | x :: rest => x ++ (rest.map (fun y => ',' :: y)).flatten

/-- `_remove_named_export` (fix_imports.py:254-277): for every brace
export statement of the *original* text whose comma-split entries contain
`name`, either delete the statement (sole entry) or rewrite it without
the name — splicing at the original match offsets into the current,
possibly already edited text, as the source does. -/
def remove_named_export (content name : List Char) : List Char × List Change :=
  (scanFind matchDestructuredExport content).foldl (fun acc m =>
    let names := (pySplitChar ',' m.1).map pyStrip
    if names.contains name then
      if names.length = 1 then
        (acc.1.take m.2.1 ++ acc.1.drop m.2.2, acc.2 ++ [Change.removedNamedExportFor name])
      else
        let new_export := "export \x7b ".toList ++ joinComma (names.filter (fun n => n ≠ name)) ++
          " \x7d;".toList
        (acc.1.take m.2.1 ++ new_export ++ acc.1.drop m.2.2,
         acc.2 ++ [Change.removedFromNamedExports name])
    else acc) (content, [])

/-- `Path(p).name`: the last `/`-separated component. -/
def pyBasename (p : List Char) : List Char :=
  (pySplitChar '/' p).getLastD []

/-- `Path(p).stem`: the basename without its last extension (a leading
dot does not start an extension). -/
def pyStem (p : List Char) : List Char :=
  let bn := pyBasename p
  match bn.reverse.indexOf? '.' with
  | some i =>
    let idx := bn.length - 1 - i
    if 0 < idx then bn.take idx else bn
  | none => bn

/-- `modernize_exports` (fix_imports.py:192-252).  For a basename in
`keep_as_default`: ensure the class of that name is a default export,
removing a named export first when one exists.  Otherwise convert default
exports of forced-named names (or of the basename) to brace exports when
no other declaration of the name exists, and turn `export class` of
forced-named names into a bare class plus a trailing brace export. -/
def modernize_exports (content filename : List Char)
    (keep_as_default should_be_named : List (List Char)) : List Char × List Change :=
  let exports := find_all_exports content
  let basename := pyStem filename
  if keep_as_default.contains basename then
    let hasClassOfBase := (dictGet exports "class").any (fun e => e.1 = basename)
    let hasDefaultOfBase := (dictGet exports "default").any (fun e => e.1 = basename)
    if hasClassOfBase && !hasDefaultOfBase then
      if (dictGet exports "destructured").any (fun e => e.1 = basename) then
        let r := remove_named_export content basename
        let c2 := scanSub (stepClassName basename
          ("export default class ".toList ++ basename)) r.1
        (c2, r.2 ++ [Change.addedDefaultExport basename])
      else
        let c2 := scanSub (stepExportClassName basename
          ("export default class ".toList ++ basename)) content
        (c2, [Change.classToDefaultExport basename])
    else (content, [])
  else
    let afterDefaults := (dictGet exports "default").foldl (fun acc e =>
      let name := e.1
      if should_be_named.contains name || name = basename then
        let has_named := (dictGet exports "destructured").any (fun d => d.1 = name)
        let has_class := (dictGet exports "class").any (fun d => d.1 = name)
        let has_function := (dictGet exports "function").any (fun d => d.1 = name)
        let has_const := (dictGet exports "const").any (fun d => d.1 = name)
        if !(has_named || has_class || has_function || has_const) then
          (scanSub (stepExportDefaultName name
            ("export \x7b ".toList ++ name ++ " \x7d;".toList)) acc.1,
           acc.2 ++ [Change.defaultToNamedExport name])
        else acc
      else acc) (content, [])
    (dictGet exports "class").foldl (fun acc e =>
      let name := e.1
      if should_be_named.contains name then
        if !(dictGet exports "destructured").any (fun d => d.1 = name) then
          let c1 := scanSub (stepExportClassName name ("class ".toList ++ name)) acc.1
          (pyRStrip c1 ++ "\n\nexport \x7b ".toList ++ name ++ " \x7d;\n".toList,
           acc.2 ++ [Change.classExportToNamed name])
        else acc
      else acc) afterDefaults

/-- `check_uicomponent_imports` (fix_imports.py:341-385): outside
`UIComponent.js`, rewrite braced `UIComponent` imports (optionally
aliased, the alias becoming the local name) to default imports, then
rewrite sole-name braced imports from paths ending in `UIComponent(.js)`
to default imports. -/
def check_uicomponent_imports (content filename : List Char) : List Char × List Change :=
  if pyBasename filename = "UIComponent.js".toList then (content, [])
  else
    let step1 := (scanFind matchUiImport content).foldl (fun acc m =>
      let import_statement := pySlice content m.2.1 m.2.2
      let import_path := m.1
      if import_statement.contains '{' && import_statement.contains '}' then
        let new_import :=
          if pyContains "as".toList import_statement then
            match searchUiAlias import_statement with
            | some aliasName =>
              "import ".toList ++ aliasName ++ " from ".toList ++ pyReprStr import_path
            | none => "import UIComponent from ".toList ++ pyReprStr import_path
          else "import UIComponent from ".toList ++ pyReprStr import_path
        (pyReplace import_statement new_import acc.1,
         acc.2 ++ [Change.fixedUIComponentImport])
      else acc) (content, [])
    (scanFind matchUiPathImport step1.1).foldl (fun acc m =>
      let import_statement := pySlice step1.1 m.2.1 m.2.2
      let imported_names := pyStrip m.1.1
      let import_path := m.1.2
      if imported_names = "UIComponent".toList then
        (pyReplace import_statement
          ("import UIComponent from ".toList ++ pyReprStr import_path) acc.1,
         acc.2 ++ [Change.fixedUIComponentPathImport])
      else acc) step1

/-- `os.path.dirname` (POSIX). -/
def pyDirname (p : List Char) : List Char :=
  match pyRFindCharBefore '/' p.length p with
  | none => []
  | some i =>
    let head := p.take (i + 1)
    if head.all (fun c => c = '/') then head
    else (head.reverse.dropWhile (fun c => c = '/')).reverse

/-- `os.path.join` (POSIX, two arguments). -/
def pyJoin (a b : List Char) : List Char :=
  if pyStartsWith "/".toList b then b
  else if a.isEmpty || pyEndsWith "/".toList a then a ++ b
  else a ++ '/' :: b

/-- The component-processing loop of `posixpath.normpath`. -/
def normCompsGo (initAbs : Bool) : List (List Char) → List (List Char) → List (List Char)
  | acc, [] => acc
  | acc, comp :: rest =>
    if comp = [] || comp = ".".toList then normCompsGo initAbs acc rest
    else if comp ≠ "..".toList ∨ (¬ initAbs ∧ acc = []) ∨ acc.getLast? = some "..".toList then
      normCompsGo initAbs (acc ++ [comp]) rest
    else if acc ≠ [] then normCompsGo initAbs acc.dropLast rest
    else normCompsGo initAbs acc rest

/-- `'/'.join(xs)`. -/
def joinSlash : List (List Char) → List Char
  | [] => []
  | x :: rest => x ++ (rest.map (fun y => '/' :: y)).flatten

/-- `os.path.normpath` (POSIX). -/
def pyNormpath (p : List Char) : List Char :=
  if p.isEmpty then ".".toList
  else
    let initial_slashes : Nat :=
      if pyStartsWith "/".toList p then
        if pyStartsWith "//".toList p && !pyStartsWith "///".toList p then 2 else 1
      else 0
    let comps := pySplitChar '/' p
    let new_comps := normCompsGo (0 < initial_slashes) [] comps
    let path := List.replicate initial_slashes '/' ++ joinSlash new_comps
    if path.isEmpty then ".".toList else path

/-- `resolve_import_path` (fix_imports.py:441-458): relative specifiers
are joined to the importer's directory, normalized, and given a `.js`
extension when missing; other specifiers pass through. -/
def resolve_import_path (source_file import_path : List Char) : List Char :=
  if pyStartsWith "./".toList import_path || pyStartsWith "../".toList import_path then
    let absolute_path := pyNormpath (pyJoin (pyDirname source_file) import_path)
    if pyEndsWith ".js".toList absolute_path then absolute_path
    else absolute_path ++ ".js".toList
  else import_path

/-- Increment the named (`true`) or default (`false`) count of `k` in the
insertion-ordered tally, creating the entry on first use
(fix_imports.py:410-419). -/
def tallyInc : List (List Char × Nat × Nat) → List Char → Bool → List (List Char × Nat × Nat)
  | [], k, isNamed => [(k, if isNamed then (1, 0) else (0, 1))]
  | (k', n, d) :: rest, k, isNamed =>
    if k' = k then
      (if isNamed then (k', n + 1, d) :: rest else (k', n, d + 1) :: rest)
    else (k', n, d) :: tallyInc rest k isNamed

/-- `import_styles` (fix_imports.py:393-419): per resolved module path,
(named count, default count) over every file's import records, files in
order, default records before named records per file. -/
def import_styles_of (files : List (List Char × List Char)) :
    List (List Char × Nat × Nat) :=
  files.foldl (fun m f =>
    let imports := find_all_imports f.2
    let m1 := (dictGet imports "default").foldl
      (fun m e => tallyInc m (resolve_import_path f.1 e.2.1) false) m
    (dictGet imports "named").foldl
      (fun m e => tallyInc m (resolve_import_path f.1 e.2.1) true) m1) []

/-- The per-path style decision (fix_imports.py:429-434): `named` when
named imports outnumber default imports, else `default` when any
default import exists, else `named`. -/
def export_style_of (counts : Nat × Nat) : String :=
  if counts.2 < counts.1 then "named"
  else if 0 < counts.2 then "default"
  else "named"

/-- `analyze_import_export_relationships` (fix_imports.py:387-439):
the tally mapped through the style decision. -/
def analyze_import_export_relationships (files : List (List Char × List Char)) :
    List (List Char × String) :=
  (import_styles_of files).map (fun p => (p.1, export_style_of p.2))

/-- Matcher for `re.search(r'export\s+default\s+', content)`
(fix_imports.py:628). -/
def matchExportDefaultKw (cs : List Char) : Option (Nat × Unit) := do
  let l0 ← matchLit "export".toList cs
  let w1 ← ws1 (cs.drop l0)
  let p1 := l0 + w1
  let l1 ← matchLit "default".toList (cs.drop p1)
  let w2 ← ws1 (cs.drop (p1 + l1))
  some (p1 + l1 + w2, ())

/-- The dedicated `UIComponent.js` pre-pass of `main`
(fix_imports.py:615-652), for a run with write-back enabled and
`--fix-duplicates-only` off: the first file named `UIComponent.js`
lacking an `export default` gets one appended (bare `class UIComponent`)
or spliced in (`export class UIComponent` replaced everywhere), and the
updated content is written back before anything else runs. -/
def ui_component_pre_pass (files : List (List Char × List Char)) :
    List (List Char × List Char) :=
  match files.find? (fun f => pyBasename f.1 = "UIComponent.js".toList) with
  | none => files
  | some file =>
    let content := file.2
    if !(scanFind matchExportDefaultKw content).isEmpty then files
    else
      let newContent :=
        if pyContains "class UIComponent".toList content &&
            !pyContains "export class UIComponent".toList content then
          some (pyRStrip content ++ "\n\nexport default UIComponent;\n".toList)
        else if pyContains "export class UIComponent".toList content then
          some (pyReplace "export class UIComponent".toList
            "export default class UIComponent".toList content)
        else none
      match newContent with
      | none => files
      | some nc => files.map (fun f => if f.1 = file.1 then (f.1, nc) else f)

/-- The module-style map `main` hands to the per-file loop
(fix_imports.py:654-656): `analyze_import_export_relationships` runs over
the files as they are on disk *after* the `UIComponent.js` pre-pass, and
the resulting map is never modified afterwards (the loop only reads it
via `export_style_map.get`, fix_imports.py:467). -/
def run_style_map (files : List (List Char × List Char)) :
    List (List Char × String) :=
  analyze_import_export_relationships (ui_component_pre_pass files)

theorem lookup_map_value {κ α β : Type} [BEq κ] (l : List (κ × α)) (f : α → β) (k : κ) (v : α)
    (h : l.lookup k = some v) :
    (l.map (fun p => (p.1, f p.2))).lookup k = some (f v) := by
  induction l with
  | nil => simp [List.lookup] at h
  | cons p t ih =>
    simp only [List.map, List.lookup] at h ⊢
    cases hk : (k == p.1) with
    | true =>
      rw [hk] at h
      simp at h
      simp [h]
    | false =>
      rw [hk] at h
      exact ih h

theorem dropWhile_eq_self_of_false {p : Char → Bool} :
    ∀ (l : List Char), (∀ c ∈ l, p c = false) → l.dropWhile p = l
  | [], _ => rfl
  | c :: cs, h => by simp [List.dropWhile, h c (by simp)]

theorem pyStrip_of_nospace (x : List Char) (h : ∀ c ∈ x, isPySpace c = false) :
    pyStrip x = x := by
  unfold pyStrip
  rw [dropWhile_eq_self_of_false x h,
    dropWhile_eq_self_of_false x.reverse (by intro c hc; exact h c (List.mem_reverse.mp hc)),
    List.reverse_reverse]

theorem pySplitHead_as_append (x y : List Char) (h : ∀ c ∈ x, isPySpace c = false) :
    pySplitHead " as ".toList (x ++ " as ".toList ++ y) = x := by
  have hsep : " as ".toList = [' ', 'a', 's', ' '] := rfl
  rw [hsep]
  induction x with
  | nil =>
    simp [pySplitHead, List.isPrefixOf]
  | cons c cs ih =>
    have hc : isPySpace c = false := h c (by simp)
    have hne : (' ' == c) = false := by
      apply beq_eq_false_iff_ne.mpr
      intro he
      rw [← he] at hc
      simp [isPySpace] at hc
    simp only [List.cons_append, pySplitHead, List.isPrefixOf, hne, Bool.false_and,
      Bool.false_eq_true, if_false]
    exact congrArg (List.cons c) (ih (by intro d hd; exact h d (by simp [hd])))

theorem keep_index_all_destructured (ts : List String)
    (h : ∀ t ∈ ts, t = "destructured") : keep_index ts = 0 := by
  have hc : ∀ (s : String), s ≠ "destructured" → ts.contains s = false := by
    intro s hs
    cases hb : ts.contains s with
    | false => rfl
    | true =>
      have hmem : s ∈ ts := by
        have := List.contains_iff_exists_mem_beq.mp hb
        obtain ⟨a, ha, hba⟩ := this
        rw [eq_of_beq hba]
        exact ha
      exact absurd (h s hmem) hs
  unfold keep_index
  rw [hc "class" (by decide), hc "function" (by decide), hc "const" (by decide)]
  cases ts with
  | nil => simp [keep_index, List.contains, pyIndex]
  | cons t ts' =>
    have ht := h t (by simp)
    subst ht
    simp [List.contains, pyIndex]

/-- C1: duplicate resolution is not idempotent.  On a file with two
duplicated symbols, resolving the first symbol shifts the text, so the
second symbol's recorded spans go stale and the wrong line is deleted:
the first pass leaves `export default B` next to `export const B`, and a
second pass removes that remaining duplicate — a nonempty change list and
a different text, contradicting the claimed idempotence. -/
theorem c1_duplicate_resolution_not_idempotent :
    remove_duplicate_exports
      "export default A;\nexport default B;\nexport const A = 1;\nexport const B = 2;\n".toList =
      ("export default B;\nexport const B = 2;\n".toList,
       [Change.removedDuplicateExport "default" "A".toList,
        Change.removedDuplicateExport "default" "B".toList]) ∧
    remove_duplicate_exports "export default B;\nexport const B = 2;\n".toList =
      ("export const B = 2;\n".toList,
       [Change.removedDuplicateExport "default" "B".toList]) ∧
    "export const B = 2;\n".toList ≠ "export default B;\nexport const B = 2;\n".toList :=
  ⟨by decide, by decide, by decide⟩

/-- C2: the priority law fails on a file with two duplicated symbols.
For `P` the kept `export const P` line is deleted while processing `Q`'s
stale spans, and `Q`'s `export default Q` line survives: the output keeps
a default export and loses a const export, contradicting "the retained
declaration is always the const form". -/
theorem c2_priority_law_fails_under_interference :
    remove_duplicate_exports
      "export default P;\nexport default Q;\nexport const P = 1;\nexport const Q = 2;\n".toList =
      ("export default Q;\nexport const Q = 2;\n".toList,
       [Change.removedDuplicateExport "default" "P".toList,
        Change.removedDuplicateExport "default" "Q".toList]) ∧
    pyContains "export const P".toList
      "export default Q;\nexport const Q = 2;\n".toList = false ∧
    pyContains "export default Q".toList
      "export default Q;\nexport const Q = 2;\n".toList = true :=
  ⟨by decide, by decide, by decide⟩

/-- C3 counterexample: for two brace exports both containing `A`,
resolution removes `A` from the *first* statement and keeps it in the
second, so the first occurrence is not the retained one (first-occurrence
retention would instead give `export { A, B };\nexport { C };`). -/
theorem c3_first_occurrence_not_retained :
    remove_duplicate_exports "export { A, B };\nexport { A, C };\n".toList =
      ("export { B };\nexport { A, C };\n".toList,
       [Change.removedNameFromExportStatement "A".toList]) ∧
    "export { B };\nexport { A, C };\n".toList ≠
      "export { A, B };\nexport { C };\n".toList :=
  ⟨by decide, by decide⟩

/-- C3 amended: among duplicate declarations of equal, unrepresented
priority the engine retains the *last* occurrence by scan order: the
positions are sorted by start descending (`pySortByStartDesc`), and for a
kind list that is all `destructured` the kept index is 0, the entry with
the largest start.  Concretely, of two brace exports of `D` the later
statement keeps `D`. -/
theorem c3_last_occurrence_retained :
    (∀ ts : List String, (∀ t ∈ ts, t = "destructured") → keep_index ts = 0) ∧
    remove_duplicate_exports "export { D, E };\nexport { D, F };\n".toList =
      ("export { E };\nexport { D, F };\n".toList,
       [Change.removedNameFromExportStatement "D".toList]) :=
  ⟨keep_index_all_destructured, by decide⟩

/-- Witness for `c3_last_occurrence_retained` at a concrete kind list. -/
theorem c3_last_occurrence_retained_witness :
    keep_index ["destructured", "destructured"] = 0 :=
  c3_last_occurrence_retained.1 ["destructured", "destructured"] (by decide)

/-- C4 (Scenario A): on `export default Foo;\nclass Foo {}` with `Foo` in
the forced-named set, duplicate resolution is a no-op and
`modernize_exports` rewrites the default export to `export { Foo };`; the
output contains `export { Foo };` and no `export default`. -/
theorem c4_scenario_a :
    remove_duplicate_exports "export default Foo;\nclass Foo {}".toList =
      ("export default Foo;\nclass Foo {}".toList, []) ∧
    modernize_exports (remove_duplicate_exports "export default Foo;\nclass Foo {}".toList).1
      "Renderer.js".toList [] ["Foo".toList] =
      ("export { Foo };\nclass Foo {}".toList,
       [Change.defaultToNamedExport "Foo".toList]) ∧
    pyContains "export { Foo };".toList "export { Foo };\nclass Foo {}".toList = true ∧
    pyContains "export default".toList "export { Foo };\nclass Foo {}".toList = false :=
  ⟨by decide, by decide, by decide, by decide⟩

/-- C5 (Scenario B): on `export {A, A};` the deletion pattern
`,?\s*\bA\b\s*,?` removes *every* occurrence of `A`, including the
retained one, so the output is `export {};` (not the claimed
`export { A };`), with one ChangeRecord. -/
theorem c5_scenario_b_empties_the_list :
    remove_duplicate_exports "export {A, A};".toList =
      ("export {};".toList, [Change.removedNameFromExportStatement "A".toList]) ∧
    "export {};".toList ≠ "export { A };".toList :=
  ⟨by decide, by decide⟩

/-- C6: a file with two anonymous default exports.  The scanner records
two `_anonymous_` entries (and two entries for the captured word
`function`), duplicate resolution treats both as duplicated symbols, and
every line is deleted: anonymous default exports are removed, violating
the invariant. -/
theorem c6_anonymous_defaults_removed :
    ((dictGet (find_all_exports
        "export default function() {}\nexport default function() {}\n".toList) "default").filter
      (fun e => e.1 = "_anonymous_".toList)).length = 2 ∧
    remove_duplicate_exports
      "export default function() {}\nexport default function() {}\n".toList =
      ([],
       [Change.removedDuplicateExport "default" "function".toList,
        Change.removedDuplicateExport "default" "_anonymous_".toList]) :=
  ⟨by decide, by decide⟩

/-- A two-file project importing `./m` three times as named and twice as
default. -/
def projThreeNamedTwoDefault : List (List Char × List Char) :=
  [("a.js".toList, "import { X } from './m'\nimport M from './m'\n".toList),
   ("b.js".toList, "import { Y, Z } from './m'\nimport M2 from './m'\n".toList)]

/-- A one-file project importing `./solo` once, as default. -/
def projOneDefault : List (List Char × List Char) :=
  [("c.js".toList, "import Q from './solo'".toList)]

/-- C7: every entry of the inferred style map follows the decision rule
(`named` when namedCount > defaultCount, else `default` when
defaultCount > 0, else `named`); a module imported 3 times as named and 2
as default is classified `named`, and a module imported once as default
is classified `default`. -/
theorem c7_style_decision :
    (∀ (files : List (List Char × List Char)) (path : List Char) (n d : Nat),
        (import_styles_of files).lookup path = some (n, d) →
        (analyze_import_export_relationships files).lookup path =
          some (if d < n then "named" else if 0 < d then "default" else "named")) ∧
    import_styles_of projThreeNamedTwoDefault = [("m.js".toList, 3, 2)] ∧
    analyze_import_export_relationships projThreeNamedTwoDefault =
      [("m.js".toList, "named")] ∧
    import_styles_of projOneDefault = [("solo.js".toList, 0, 1)] ∧
    analyze_import_export_relationships projOneDefault =
      [("solo.js".toList, "default")] := by
  refine ⟨?_, by decide, by decide, by decide, by decide⟩
  intro files path n d h
  unfold analyze_import_export_relationships
  exact lookup_map_value (import_styles_of files) export_style_of path (n, d) h

/-- Witness for `c7_style_decision` at the three-named/two-default
project. -/
theorem c7_style_decision_witness :
    (analyze_import_export_relationships projThreeNamedTwoDefault).lookup "m.js".toList =
      some (if 2 < 3 then "named" else if 0 < 2 then "default" else "named") :=
  c7_style_decision.1 projThreeNamedTwoDefault "m.js".toList 3 2 (by decide)

/-- A project whose `UIComponent.js` lacks a default export and whose
module specifier happens to contain the text `export class UIComponent`,
so the pre-pass rewrite of that file changes an import specifier. -/
def uiPrepassCounterexampleFiles : List (List Char × List Char) :=
  [("UIComponent.js".toList,
    "import A from './export class UIComponent'\nclass UIComponent {}\n".toList)]

/-- C8 counterexample: the dedicated `UIComponent.js` pre-pass rewrites
that file *before* the tally is computed, and the tally the run uses
differs from the tally over the original files — the snapshot is not
taken before any file is rewritten. -/
theorem c8_tally_not_prerun_snapshot :
    ui_component_pre_pass uiPrepassCounterexampleFiles ≠ uiPrepassCounterexampleFiles ∧
    run_style_map uiPrepassCounterexampleFiles ≠
      analyze_import_export_relationships uiPrepassCounterexampleFiles :=
  ⟨by decide, by decide⟩

/-- C8 amended: the tally is computed once, after the `UIComponent.js`
pre-pass but before the per-file rewrite loop, and is read-only
afterwards; whenever the pre-pass changes nothing the run's style map is
exactly the tally over the original (pre-run) files. -/
theorem c8_tally_snapshot_after_prepass :
    ∀ files : List (List Char × List Char),
      ui_component_pre_pass files = files →
      run_style_map files = analyze_import_export_relationships files := by
  intro files h
  unfold run_style_map
  rw [h]

/-- Witness for `c8_tally_snapshot_after_prepass` on a project without a
`UIComponent.js`. -/
theorem c8_tally_snapshot_after_prepass_witness :
    run_style_map [("a.js".toList, "import { X } from './b'".toList)] =
      analyze_import_export_relationships
        [("a.js".toList, "import { X } from './b'".toList)] :=
  c8_tally_snapshot_after_prepass _ (by decide)

/-- C9 counterexample: for `import { X as Y } from './m'` the scanner
records `X` — the pre-alias exported name — not the local binding `Y`
claimed by the spec. -/
theorem c9_alias_records_exported_name :
    (dictGet (find_all_imports "import { X as Y } from './m'".toList) "named").map
      (fun e => (e.1, e.2.1)) = [("X".toList, "./m".toList)] ∧
    "X".toList ≠ "Y".toList :=
  ⟨by decide, by decide⟩

/-- C9 amended: the scanner records the pre-alias (exported) side of an
aliased entry: for any alias-free written name `x`, the recorded name of
the entry `x as y` is `x`; concretely `Alpha as Beta` records `Alpha`. -/
theorem c9_prealias_name_recorded :
    (∀ x y : List Char, (∀ c ∈ x, isPySpace c = false) →
        importEntryName (x ++ " as ".toList ++ y) = x) ∧
    (dictGet (find_all_imports "import { Alpha as Beta } from './p'".toList) "named").map
      (fun e => e.1) = ["Alpha".toList] := by
  refine ⟨?_, by decide⟩
  intro x y h
  unfold importEntryName
  rw [pySplitHead_as_append x y h, pyStrip_of_nospace x h]

/-- Witness for `c9_prealias_name_recorded` at a concrete entry. -/
theorem c9_prealias_name_recorded_witness :
    importEntryName ("Q".toList ++ " as ".toList ++ "R".toList) = "Q".toList :=
  c9_prealias_name_recorded.1 "Q".toList "R".toList (by decide)

/-- C10 counterexample: a named import listing `UIComponent` among other
names is left completely unchanged by the UIComponent pass, although the
scanner does record a named `UIComponent` import in it — refuting
"rewrites any named import of the symbol UIComponent". -/
theorem c10_multiname_import_untouched :
    (dictGet (find_all_imports "import { UIComponent, Other } from './c'".toList)
        "named").any (fun e => e.1 = "UIComponent".toList) = true ∧
    check_uicomponent_imports "import { UIComponent, Other } from './c'".toList
      "x.js".toList =
      ("import { UIComponent, Other } from './c'".toList, []) :=
  ⟨by decide, by decide⟩

/-- C10 amended: the pass returns any file named `UIComponent.js`
unchanged; elsewhere it rewrites braced imports whose list is exactly
`UIComponent` (or `UIComponent as X`, keeping the alias as local name)
into default imports, while lists with additional names are not
touched. -/
theorem c10_uicomponent_pass_behaviour :
    (∀ content : List Char,
        check_uicomponent_imports content "UIComponent.js".toList = (content, [])) ∧
    check_uicomponent_imports
      "import { UIComponent } from './core/UIComponent.js';".toList "x.js".toList =
      ("import UIComponent from './core/UIComponent.js';".toList,
       [Change.fixedUIComponentImport]) ∧
    check_uicomponent_imports "import { UIComponent as UC } from './ui'".toList
      "x.js".toList =
      ("import UC from './ui'".toList, [Change.fixedUIComponentImport]) := by
  refine ⟨?_, by decide, by decide⟩
  intro content
  unfold check_uicomponent_imports
  rw [if_pos (by decide)]
